import Mathlib

/-!
Verification of the camera navigation and view-state controller of the
vgc-collection gallery front-end, embedded shallowly from src/src/App.js.

The embedding covers:
* the scene catalog (SCENES, makeScene, findItemById);
* the URL router effect (parseLocation over path segments);
* the FOV zoom pipeline (wheel, pinch and button zoom, all clamped);
* the pinch gesture state machine (handleTouchStart, Move, End);
* the quaternion orbit rotation (rotate), FOV zoom (zoom) and view
  reset (revertView) of ArrowControls, over a camera state holding the
  field of view, the position, the orbit target and the lookAt frame.

Machine reals of the source are modelled as Lean reals; the control
handle resynchronisation (controls.update) only touches internal state
of the external orbit-control library, so it is modelled as the
identity on the camera fields, as described in the specification.
-/

namespace Vgc

/-- The fixed list of known scene identifiers (constant SCENES). -/
def SCENES : List String := ["aurora", "mountains", "tropical_sea", "underwater_ruins"]

/-- JavaScript String.split with a one-character separator, on the
character list: splits at every separator occurrence, keeping empty
pieces, so that "".split(sep) is [""]. -/
def splitChars (sep : Char) : List Char → List String
  | [] => [""]
  | c :: cs =>
    match splitChars sep cs, decide (c = sep) with
    | rest, true => "" :: rest
    | [], false => [String.mk [c]]
    | r :: rs, false => String.mk (c :: r.data) :: rs

/-- JavaScript s.split(sep) for a one-character separator. -/
def jsSplit (s : String) (sep : Char) : List String :=
  splitChars sep s.data

/-- Capitalisation of one word, as in
`w.charAt(0).toUpperCase() + w.slice(1)` of makeScene (charAt of the
empty string is the empty string). -/
def capitalizeWord (w : String) : String :=
  match w.data with
  | [] => ""
  | c :: cs => String.mk (c.toUpper :: cs)

/-- The six cube-face image paths of a scene descriptor. -/
structure Faces where
  right : String
  left : String
  top : String
  bottom : String
  front : String
  back : String
deriving DecidableEq

/-- A scene descriptor, as built by makeScene. -/
structure Scene where
  id : String
  name : String
  layout : String
  faces : Faces
deriving DecidableEq

/-- makeScene from App.js: derives the display name and the seven image
paths from the scene identifier. -/
def makeScene (id : String) : Scene :=
  let base := "/scenes/" ++ id
  { id := id
    name := String.intercalate " " ((jsSplit id '_').map capitalizeWord)
    layout := base ++ "/layout.png"
    faces :=
      { right := base ++ "/right.png"
        left := base ++ "/left.png"
        top := base ++ "/top.png"
        bottom := base ++ "/bottom.png"
        front := base ++ "/front.png"
        back := base ++ "/back.png" } }

/-- findItemById from App.js: resolves an identifier in the catalog,
returning none when the identifier is unknown. -/
def findItemById (id : String) : Option Scene :=
  if SCENES.contains id then some (makeScene id) else none

/-- The non-empty path segments,
`window.location.pathname.split("/").filter(Boolean)` (an empty string
is the only falsy string). -/
def pathSegments (path : String) : List String :=
  (jsSplit path '/').filter (fun s => s ≠ "")

/-- The URL-based scene loading effect of App: when the first segment is
"viewer" and a second segment exists (after the Boolean filter every
kept segment is a non-empty, hence truthy, string), the second segment
is looked up; a hit replaces the selection and a miss leaves the
selection unchanged. -/
def parseLocation (path : String) (selected : Option Scene) : Option Scene :=
  match pathSegments path with
  | p0 :: p1 :: _ =>
    if p0 = "viewer" then
      match findItemById p1 with
      | some loaded => some loaded
      | none => selected
    else selected
  | _ => selected

/-- C5: resolve returns a descriptor exactly on members of the fixed
known-id list; resolve "aurora" yields the six face paths and the
layout path under /scenes/aurora/, and resolve "not_a_scene" is absent.
(The embedded resolver is a pure function, so it has no side effects.) -/
theorem findItemById_resolves_iff_known :
    (∀ id : String, (findItemById id).isSome ↔ id ∈ SCENES) ∧
    findItemById "aurora" = some
      { id := "aurora"
        name := "Aurora"
        layout := "/scenes/aurora/layout.png"
        faces :=
          { right := "/scenes/aurora/right.png"
            left := "/scenes/aurora/left.png"
            top := "/scenes/aurora/top.png"
            bottom := "/scenes/aurora/bottom.png"
            front := "/scenes/aurora/front.png"
            back := "/scenes/aurora/back.png" } } ∧
    findItemById "not_a_scene" = none := by
  refine ⟨fun id => ?_, by decide, by decide⟩
  by_cases h : id ∈ SCENES <;> simp [findItemById, h]

/-- C6: the router selects a scene only when the first non-empty path
segment is the literal "viewer" and a second segment exists and
resolves in the catalog; /viewer/aurora selects aurora for any prior
selection, /viewer/unknown_scene leaves the selection unchanged, and /
yields no selection. -/
theorem parseLocation_spec :
    (∀ path sel, parseLocation path sel = sel ∨
      ∃ cand, (pathSegments path)[0]? = some "viewer" ∧
        (pathSegments path)[1]? = some cand ∧
        (findItemById cand).isSome ∧
        parseLocation path sel = findItemById cand) ∧
    (∀ sel, parseLocation "/viewer/aurora" sel = some (makeScene "aurora")) ∧
    (∀ sel, parseLocation "/viewer/unknown_scene" sel = sel) ∧
    parseLocation "/" none = none := by
  refine ⟨fun path sel => ?_, fun sel => rfl, fun sel => rfl, rfl⟩
  rcases hp : pathSegments path with _ | ⟨p0, _ | ⟨p1, rest⟩⟩
  · left; simp [parseLocation, hp]
  · left; simp [parseLocation, hp]
  by_cases hv : p0 = "viewer"
  · subst hv
    rcases hf : findItemById p1 with _ | sc
    · left; simp [parseLocation, hp, hf]
    · right
      refine ⟨p1, by simp [hp], by simp [hp], by simp [hf], ?_⟩
      simp [parseLocation, hp, hf]
  · left; simp [parseLocation, hp, hv]

/-- C10: every catalog member resolves to a descriptor whose id field is
the input id and whose seven image paths are the fixed file names
right.png, left.png, top.png, bottom.png, front.png, back.png and
layout.png under /scenes/id/. -/
theorem findItemById_paths (id : String) (h : id ∈ SCENES) :
    findItemById id = some (makeScene id) ∧
    (makeScene id).id = id ∧
    (makeScene id).faces.right = ("/scenes/" ++ id) ++ "/right.png" ∧
    (makeScene id).faces.left = ("/scenes/" ++ id) ++ "/left.png" ∧
    (makeScene id).faces.top = ("/scenes/" ++ id) ++ "/top.png" ∧
    (makeScene id).faces.bottom = ("/scenes/" ++ id) ++ "/bottom.png" ∧
    (makeScene id).faces.front = ("/scenes/" ++ id) ++ "/front.png" ∧
    (makeScene id).faces.back = ("/scenes/" ++ id) ++ "/back.png" ∧
    (makeScene id).layout = ("/scenes/" ++ id) ++ "/layout.png" := by
  refine ⟨?_, rfl, rfl, rfl, rfl, rfl, rfl, rfl, rfl⟩
  simp [findItemById, h]

/-- Witness for C10 at the concrete catalog member "aurora". -/
theorem findItemById_paths_witness :
    ("aurora" ∈ SCENES) ∧
    (findItemById "aurora" = some (makeScene "aurora") ∧
      (makeScene "aurora").id = "aurora" ∧
      (makeScene "aurora").faces.right = ("/scenes/" ++ "aurora") ++ "/right.png" ∧
      (makeScene "aurora").faces.left = ("/scenes/" ++ "aurora") ++ "/left.png" ∧
      (makeScene "aurora").faces.top = ("/scenes/" ++ "aurora") ++ "/top.png" ∧
      (makeScene "aurora").faces.bottom = ("/scenes/" ++ "aurora") ++ "/bottom.png" ∧
      (makeScene "aurora").faces.front = ("/scenes/" ++ "aurora") ++ "/front.png" ∧
      (makeScene "aurora").faces.back = ("/scenes/" ++ "aurora") ++ "/back.png" ∧
      (makeScene "aurora").layout = ("/scenes/" ++ "aurora") ++ "/layout.png") :=
  ⟨by decide, findItemById_paths "aurora" (by decide)⟩

/-! ## Camera geometry

The rendering library (three.js) primitives used by the handlers, at
the precision of real arithmetic. -/

noncomputable section

/-- A three-component vector (THREE.Vector3). -/
@[ext]
structure Vec3 where
  x : ℝ
  y : ℝ
  z : ℝ

namespace Vec3

/-- Vector3.sub. -/
def sub (a b : Vec3) : Vec3 := ⟨a.x - b.x, a.y - b.y, a.z - b.z⟩

/-- Vector3.add. -/
def add (a b : Vec3) : Vec3 := ⟨a.x + b.x, a.y + b.y, a.z + b.z⟩

/-- Vector3.cross. -/
def cross (a b : Vec3) : Vec3 :=
  ⟨a.y * b.z - a.z * b.y, a.z * b.x - a.x * b.z, a.x * b.y - a.y * b.x⟩

/-- Vector3.lengthSq. -/
def lengthSq (a : Vec3) : ℝ := a.x * a.x + a.y * a.y + a.z * a.z

/-- Vector3.length. -/
def length (a : Vec3) : ℝ := Real.sqrt a.lengthSq

/-- Vector3.normalize: divideScalar(length || 1), so the zero vector is
left unchanged. -/
def normalize (v : Vec3) : Vec3 :=
  let l := if v.length = 0 then 1 else v.length
  ⟨v.x / l, v.y / l, v.z / l⟩

end Vec3

/-- A quaternion (THREE.Quaternion), components (w, x, y, z). -/
@[ext]
structure Quat where
  w : ℝ
  x : ℝ
  y : ℝ
  z : ℝ

/-- Quaternion.setFromAxisAngle (axis assumed normalised, as in the
library documentation). -/
def setFromAxisAngle (axis : Vec3) (angle : ℝ) : Quat :=
  let halfAngle := angle / 2
  let s := Real.sin halfAngle
  ⟨Real.cos halfAngle, axis.x * s, axis.y * s, axis.z * s⟩

/-- Quaternion.multiply: a.multiply(b) stores the product a * b. -/
def qmul (a b : Quat) : Quat :=
  ⟨a.w * b.w - a.x * b.x - a.y * b.y - a.z * b.z,
   a.x * b.w + a.w * b.x + a.y * b.z - a.z * b.y,
   a.y * b.w + a.w * b.y + a.z * b.x - a.x * b.z,
   a.z * b.w + a.w * b.z + a.x * b.y - a.y * b.x⟩

/-- The squared length w * w + x * x + y * y + z * z of a quaternion. -/
def qnormSq (q : Quat) : ℝ := q.w * q.w + q.x * q.x + q.y * q.y + q.z * q.z

/-- Vector3.applyQuaternion: t = 2 * cross(q, v), then
v + q.w * t + cross(q, t), which is the rotation by q for a unit q. -/
def applyQuaternion (v : Vec3) (q : Quat) : Vec3 :=
  let tx := 2 * (q.y * v.z - q.z * v.y)
  let ty := 2 * (q.z * v.x - q.x * v.z)
  let tz := 2 * (q.x * v.y - q.y * v.x)
  ⟨v.x + q.w * tx + (q.y * tz - q.z * ty),
   v.y + q.w * ty + (q.z * tx - q.x * tz),
   v.z + q.w * tz + (q.x * ty - q.y * tx)⟩

/-- An orthonormal camera basis, the rotation part produced by
Matrix4.lookAt. -/
@[ext]
structure Frame where
  xAxis : Vec3
  yAxis : Vec3
  zAxis : Vec3

/-- The default Object3D.up vector (0, 1, 0). -/
def worldUp : Vec3 := ⟨0, 1, 0⟩

/-- Matrix4.lookAt from three.js, as invoked by Object3D.lookAt for a
camera (eye is the camera position): back axis z from eye minus
target, right axis x from up cross z, and y completing the basis, with
the two degenerate fallbacks of the library. -/
def lookAtFrame (eye target up : Vec3) : Frame :=
  let z0 := Vec3.sub eye target
  let z1 := if z0.lengthSq = 0 then { z0 with z := 1 } else z0
  let z := z1.normalize
  let x0 := Vec3.cross up z
  let z2 :=
    if x0.lengthSq = 0 then
      (if |up.z| = 1 then { z with x := z.x + 1 / 10000 }
       else { z with z := z.z + 1 / 10000 }).normalize
    else z
  let x1 := if x0.lengthSq = 0 then Vec3.cross up z2 else x0
  let x := x1.normalize
  ⟨x, Vec3.cross z2 x, z2⟩

/-! ## View state and controller operations -/

/-- The camera and orbit-control state visible to the handlers: the
field of view, the camera position, the orbit target and the camera
orientation (always re-derived by lookAt after a manual rotation). -/
@[ext]
structure ViewState where
  fov : ℝ
  position : Vec3
  target : Vec3
  frame : Frame

/-- INITIAL_CAMERA_POSITION = [0, 0, 0.1]. -/
def INITIAL_CAMERA_POSITION : Vec3 := ⟨0, 0, 1 / 10⟩

/-- INITIAL_TARGET = [0, 0, 0]. -/
def INITIAL_TARGET : Vec3 := ⟨0, 0, 0⟩

/-- DESKTOP_FOV = 70. -/
def DESKTOP_FOV : ℝ := 70

/-- MOBILE_FOV = 85. -/
def MOBILE_FOV : ℝ := 85

/-- ZOOM_SENSITIVITY = 0.15 from FovZoomHandler. -/
def ZOOM_SENSITIVITY : ℝ := 15 / 100

/-- The clamp Math.min(Math.max(fov, 30), 100) written inline at every
FOV mutation site of App.js. -/
def clampFov (f : ℝ) : ℝ := min (max f 30) 100

/-- controls.update of the external orbit-control library: it only
resynchronises the internal spherical state of the control handle, so
on the modelled camera fields it is the identity (specification 4.2
describes it as an internal resynchronisation). -/
def updateControls (st : ViewState) : ViewState := st

/-- The rotate handler of ArrowControls: yaw quaternion about (0,1,0)
from angleX, pitch quaternion about (1,0,0) from angleY, product with
the pitch factor on the right, applied to the position relative to the
target, then lookAt(target), then controls.update(). -/
def rotate (angleX angleY : ℝ) (st : ViewState) : ViewState :=
  let quaternionX := setFromAxisAngle ⟨0, 1, 0⟩ angleX
  let quaternionY := setFromAxisAngle ⟨1, 0, 0⟩ angleY
  let quaternion := qmul quaternionX quaternionY
  let p := Vec3.add (applyQuaternion (Vec3.sub st.position st.target) quaternion) st.target
  updateControls
    { st with position := p, frame := lookAtFrame p st.target worldUp }

/-- The zoom handler of ArrowControls: fov += factor, clamped to
[30, 100], then updateProjectionMatrix (a derived matrix, not part of
the modelled state). -/
def zoom (factor : ℝ) (st : ViewState) : ViewState :=
  { st with fov := clampFov (st.fov + factor) }

/-- The revertView handler of ArrowControls: responsive default FOV
(window.innerWidth < 640 selects the mobile value), initial position
and target, then controls.update(). -/
def revertView (innerWidth : ℝ) (st : ViewState) : ViewState :=
  let defaultFov := if innerWidth < 640 then MOBILE_FOV else DESKTOP_FOV
  updateControls
    { st with
      position := INITIAL_CAMERA_POSITION
      target := INITIAL_TARGET
      fov := defaultFov }

/-- The wheel handler of FovZoomHandler:
fov += e.deltaY * ZOOM_SENSITIVITY, clamped. -/
def handleWheel (deltaY : ℝ) (fov : ℝ) : ℝ :=
  clampFov (fov + deltaY * ZOOM_SENSITIVITY)

/-! ## Guarded handlers (control handle attachment)

Each ArrowControls handler starts with `if (!controlsRef.current)
return;`: with a detached handle the call returns without touching any
camera state and without raising. -/

/-- The controls ref cell: attached tells whether controlsRef.current
is non-null, state is the camera state reachable through the handle. -/
structure ControlsRef where
  attached : Bool
  state : ViewState

/-- rotate behind the controlsRef.current guard. -/
def rotateGuarded (angleX angleY : ℝ) (r : ControlsRef) : ControlsRef :=
  if r.attached then { r with state := rotate angleX angleY r.state } else r

/-- zoom behind the controlsRef.current guard. -/
def zoomGuarded (factor : ℝ) (r : ControlsRef) : ControlsRef :=
  if r.attached then { r with state := zoom factor r.state } else r

/-- revertView behind the controlsRef.current guard. -/
def revertViewGuarded (innerWidth : ℝ) (r : ControlsRef) : ControlsRef :=
  if r.attached then { r with state := revertView innerWidth r.state } else r

/-! ## Pinch gesture state machine -/

/-- One touch point of a TouchList entry. -/
structure Touch where
  clientX : ℝ
  clientY : ℝ

/-- getDistance from FovZoomHandler: the Euclidean distance between the
first two touch points. -/
def getDistance (t0 t1 : Touch) : ℝ :=
  let dx := t0.clientX - t1.clientX
  let dy := t0.clientY - t1.clientY
  Real.sqrt (dx * dx + dy * dy)

/-- The state owned by FovZoomHandler: the camera FOV and the recorded
initialTouchDistance ref (null modelled as none). -/
structure PinchState where
  fov : ℝ
  initialTouchDistance : Option ℝ

/-- handleTouchStart: with exactly two touch points record their
distance, otherwise clear the record. -/
def handleTouchStart (touches : List Touch) (s : PinchState) : PinchState :=
  match touches with
  | [t0, t1] => { s with initialTouchDistance := some (getDistance t0 t1) }
  | _ => { s with initialTouchDistance := none }

/-- handleTouchMove: with exactly two touch points and a recorded
distance, zoom by (recorded - current) * ZOOM_SENSITIVITY with the
clamp, and overwrite the record with the current distance; otherwise
do nothing. -/
def handleTouchMove (touches : List Touch) (s : PinchState) : PinchState :=
  match touches, s.initialTouchDistance with
  | [t0, t1], some itd =>
    let currentDistance := getDistance t0 t1
    let deltaDistance := itd - currentDistance
    let zoomFactor := deltaDistance * ZOOM_SENSITIVITY
    { fov := clampFov (s.fov + zoomFactor)
      initialTouchDistance := some currentDistance }
  | _, _ => s

/-- handleTouchEnd: clear the recorded distance. -/
def handleTouchEnd (s : PinchState) : PinchState :=
  { s with initialTouchDistance := none }

/-! ## Zoom mutations (for the clamp invariant)

The three FOV mutation sites of App.js: the wheel handler, the pinch
move handler and the zoom buttons. Each one adds a delta and clamps. -/

/-- One FOV mutation: a wheel tick, a pinch move with the recorded and
the current finger distance, or a zoom button press. -/
inductive ZoomMutation where
  | wheel (deltaY : ℝ)
  | pinchMove (recordedDistance currentDistance : ℝ)
  | zoomButton (factor : ℝ)

/-- The FOV after one mutation, exactly the arithmetic of the three
handlers. -/
def applyZoomMutation (fov : ℝ) : ZoomMutation → ℝ
  | .wheel deltaY => clampFov (fov + deltaY * ZOOM_SENSITIVITY)
  | .pinchMove recorded current => clampFov (fov + (recorded - current) * ZOOM_SENSITIVITY)
  | .zoomButton factor => clampFov (fov + factor)

/-! ## Helper lemmas -/

/-- The clamp always lands in the range. -/
lemma clampFov_bounds (f : ℝ) : 30 ≤ clampFov f ∧ clampFov f ≤ 100 :=
  ⟨le_min (le_trans (by norm_num) (le_max_right f 30)) (by norm_num),
   min_le_right _ _⟩

/-- Every mutation output lies in the range, whatever the input FOV. -/
lemma applyZoomMutation_bounds (f : ℝ) (m : ZoomMutation) :
    30 ≤ applyZoomMutation f m ∧ applyZoomMutation f m ≤ 100 := by
  cases m <;> exact clampFov_bounds _

/-- Folding mutations preserves membership in the range. -/
lemma foldl_applyZoomMutation_bounds (ms : List ZoomMutation) :
    ∀ f : ℝ, 30 ≤ f → f ≤ 100 →
      30 ≤ List.foldl applyZoomMutation f ms ∧ List.foldl applyZoomMutation f ms ≤ 100 := by
  induction ms with
  | nil => exact fun f h1 h2 => ⟨h1, h2⟩
  | cons m rest ih =>
    intro f h1 h2
    rw [List.foldl_cons]
    exact ih _ (applyZoomMutation_bounds f m).1 (applyZoomMutation_bounds f m).2

/-- Subtracting a vector undoes adding it. -/
lemma Vec3.sub_add_cancel_eq (w t : Vec3) : Vec3.sub (Vec3.add w t) t = w := by
  ext <;> simp [Vec3.add, Vec3.sub]

/-- Adding a vector undoes subtracting it. -/
lemma Vec3.add_sub_cancel_eq (p t : Vec3) : Vec3.add (Vec3.sub p t) t = p := by
  ext <;> simp [Vec3.add, Vec3.sub]

/-- The squared quaternion length is multiplicative (Euler four-square
identity). -/
lemma qnormSq_qmul (p q : Quat) : qnormSq (qmul p q) = qnormSq p * qnormSq q := by
  simp only [qmul, qnormSq]
  ring

/-- The yaw quaternion is a unit quaternion. -/
lemma qnormSq_yaw (θ : ℝ) : qnormSq (setFromAxisAngle ⟨0, 1, 0⟩ θ) = 1 := by
  simp only [setFromAxisAngle, qnormSq]
  have h := Real.sin_sq_add_cos_sq (θ / 2)
  linear_combination h

/-- The pitch quaternion is a unit quaternion. -/
lemma qnormSq_pitch (θ : ℝ) : qnormSq (setFromAxisAngle ⟨1, 0, 0⟩ θ) = 1 := by
  simp only [setFromAxisAngle, qnormSq]
  have h := Real.sin_sq_add_cos_sq (θ / 2)
  linear_combination h

/-- Applying a unit quaternion preserves the squared vector length. -/
lemma lengthSq_applyQuaternion (v : Vec3) (q : Quat) (h : qnormSq q = 1) :
    (applyQuaternion v q).lengthSq = v.lengthSq := by
  simp only [applyQuaternion, Vec3.lengthSq, qnormSq] at *
  linear_combination (4 * ((q.x ^ 2 + q.y ^ 2 + q.z ^ 2) * (v.x ^ 2 + v.y ^ 2 + v.z ^ 2)
    - (q.x * v.x + q.y * v.y + q.z * v.z) ^ 2)) * h

/-- Projection of rotate to the position field. -/
lemma rotate_position (angleX angleY : ℝ) (st : ViewState) :
    (rotate angleX angleY st).position
      = Vec3.add
          (applyQuaternion (Vec3.sub st.position st.target)
            (qmul (setFromAxisAngle ⟨0, 1, 0⟩ angleX) (setFromAxisAngle ⟨1, 0, 0⟩ angleY)))
          st.target := rfl

/-- rotate keeps the orbit target. -/
lemma rotate_target (angleX angleY : ℝ) (st : ViewState) :
    (rotate angleX angleY st).target = st.target := rfl

/-- rotate keeps the field of view. -/
lemma rotate_fov (angleX angleY : ℝ) (st : ViewState) :
    (rotate angleX angleY st).fov = st.fov := rfl

/-- rotate re-derives the orientation by lookAt at the new position. -/
lemma rotate_frame (angleX angleY : ℝ) (st : ViewState) :
    (rotate angleX angleY st).frame
      = lookAtFrame (rotate angleX angleY st).position st.target worldUp := rfl

/-! ## Claim theorems for the controller -/

/-- C1: after every zoom mutation (wheel, pinch move or zoom button) of
any nonempty sequence, the field of view lies in [30, 100], whatever
the starting FOV and the signs and magnitudes of the deltas. -/
theorem fov_clamped_after_mutations (fov0 : ℝ) (ms : List ZoomMutation) (h : ms ≠ []) :
    30 ≤ List.foldl applyZoomMutation fov0 ms ∧
      List.foldl applyZoomMutation fov0 ms ≤ 100 := by
  match ms, h with
  | m :: rest, _ =>
    rw [List.foldl_cons]
    exact foldl_applyZoomMutation_bounds rest _
      (applyZoomMutation_bounds fov0 m).1 (applyZoomMutation_bounds fov0 m).2

/-- Witness for C1: one huge wheel tick from FOV 70 stays in range. -/
theorem fov_clamped_after_mutations_witness :
    ([ZoomMutation.wheel 1000000] ≠ []) ∧
    (30 ≤ List.foldl applyZoomMutation 70 [ZoomMutation.wheel 1000000] ∧
      List.foldl applyZoomMutation 70 [ZoomMutation.wheel 1000000] ≤ 100) :=
  ⟨List.cons_ne_nil _ _,
   fov_clamped_after_mutations 70 [ZoomMutation.wheel 1000000] (List.cons_ne_nil _ _)⟩

/-- C7: revertView is idempotent: applied twice with the same viewport
width it yields the same ViewState (FOV, camera position, orbit
target, and orientation) as applied once. -/
theorem revertView_idempotent (innerWidth : ℝ) (st : ViewState) :
    revertView innerWidth (revertView innerWidth st) = revertView innerWidth st := rfl

/-- C8: with a detached control handle every handler returns its input
unchanged (the functions are total, so no error is raised). -/
theorem detached_handlers_noop (angleX angleY factor innerWidth : ℝ) (r : ControlsRef)
    (h : r.attached = false) :
    rotateGuarded angleX angleY r = r ∧
    zoomGuarded factor r = r ∧
    revertViewGuarded innerWidth r = r := by
  refine ⟨?_, ?_, ?_⟩ <;> simp [rotateGuarded, zoomGuarded, revertViewGuarded, h]

/-- A concrete orbit-consistent camera state, camera one unit behind the
origin target. -/
def witnessViewState : ViewState :=
  ⟨70, ⟨0, 0, 1⟩, ⟨0, 0, 0⟩, lookAtFrame ⟨0, 0, 1⟩ ⟨0, 0, 0⟩ worldUp⟩

/-- Witness for C8 at a concrete detached ref. -/
theorem detached_handlers_noop_witness :
    (ControlsRef.mk false witnessViewState).attached = false ∧
    (rotateGuarded 1 2 (ControlsRef.mk false witnessViewState)
        = ControlsRef.mk false witnessViewState ∧
      zoomGuarded 5 (ControlsRef.mk false witnessViewState)
        = ControlsRef.mk false witnessViewState ∧
      revertViewGuarded 320 (ControlsRef.mk false witnessViewState)
        = ControlsRef.mk false witnessViewState) :=
  ⟨rfl, detached_handlers_noop 1 2 5 320 (ControlsRef.mk false witnessViewState) rfl⟩

/-- The rotate operation transcribed from the wording of specification
section 4.2: yaw quaternion about the world up-axis from yawDelta,
pitch quaternion about the world right-axis from pitchDelta, combined
with the yaw factor first and the pitch factor right-multiplied onto
it, applied to the camera position relative to the orbit target
(subtract target, rotate, re-add target), then re-orient to face the
target, then ask the control handle to resynchronise. -/
def rotateAsSpecified (yawDelta pitchDelta : ℝ) (st : ViewState) : ViewState :=
  let yawQuat := setFromAxisAngle ⟨0, 1, 0⟩ yawDelta
  let pitchQuat := setFromAxisAngle ⟨1, 0, 0⟩ pitchDelta
  let combined := qmul yawQuat pitchQuat
  let relative := Vec3.sub st.position st.target
  let rotated := applyQuaternion relative combined
  let newPosition := Vec3.add rotated st.target
  updateControls
    { st with position := newPosition, frame := lookAtFrame newPosition st.target worldUp }

/-- C3: the rotate handler performs exactly the steps of the
specification in order, with the yaw quaternion computed first and the
pitch quaternion right-multiplied onto it. -/
theorem rotate_matches_specified_steps (yawDelta pitchDelta : ℝ) (st : ViewState) :
    rotate yawDelta pitchDelta st = rotateAsSpecified yawDelta pitchDelta st := rfl

/-- C9: rotate leaves the orbit target and the squared distance from
camera to target unchanged, zoom leaves position and target unchanged,
and revertView is the operation that resets position and target to the
fixed initial values. -/
theorem only_revert_resets_position (angleX angleY factor innerWidth : ℝ) (st : ViewState) :
    (rotate angleX angleY st).target = st.target ∧
    (Vec3.sub (rotate angleX angleY st).position st.target).lengthSq
      = (Vec3.sub st.position st.target).lengthSq ∧
    (zoom factor st).position = st.position ∧
    (zoom factor st).target = st.target ∧
    (revertView innerWidth st).position = INITIAL_CAMERA_POSITION ∧
    (revertView innerWidth st).target = INITIAL_TARGET := by
  refine ⟨rfl, ?_, rfl, rfl, rfl, rfl⟩
  rw [rotate_position, Vec3.sub_add_cancel_eq]
  exact lengthSq_applyQuaternion _ _
    (by rw [qnormSq_qmul, qnormSq_yaw, qnormSq_pitch, one_mul])

/-! ## Rotation inverse: the single-axis case and the mixed-axis
counterexample -/

/-- A pitch quaternion of angle zero is the identity factor: the
product with it is the yaw quaternion alone. -/
lemma qmul_pitch_zero (θ : ℝ) :
    qmul (setFromAxisAngle ⟨0, 1, 0⟩ θ) (setFromAxisAngle ⟨1, 0, 0⟩ 0)
      = setFromAxisAngle ⟨0, 1, 0⟩ θ := by
  ext <;> simp [qmul, setFromAxisAngle]

/-- A yaw quaternion of angle zero is the identity factor: the product
with it is the pitch quaternion alone. -/
lemma qmul_yaw_zero (θ : ℝ) :
    qmul (setFromAxisAngle ⟨0, 1, 0⟩ 0) (setFromAxisAngle ⟨1, 0, 0⟩ θ)
      = setFromAxisAngle ⟨1, 0, 0⟩ θ := by
  ext <;> simp [qmul, setFromAxisAngle]

/-- A yaw rotation of the opposite angle undoes a yaw rotation. -/
lemma yaw_inverse (θ : ℝ) (v : Vec3) :
    applyQuaternion (applyQuaternion v (setFromAxisAngle ⟨0, 1, 0⟩ θ))
      (setFromAxisAngle ⟨0, 1, 0⟩ (-θ)) = v := by
  have h := Real.sin_sq_add_cos_sq (θ / 2)
  ext
  · simp only [applyQuaternion, setFromAxisAngle, Real.cos_neg, Real.sin_neg, neg_div]
    linear_combination (4 * Real.sin (θ / 2) ^ 2 * v.x) * h
  · simp only [applyQuaternion, setFromAxisAngle, Real.cos_neg, Real.sin_neg, neg_div]
    ring
  · simp only [applyQuaternion, setFromAxisAngle, Real.cos_neg, Real.sin_neg, neg_div]
    linear_combination (4 * Real.sin (θ / 2) ^ 2 * v.z) * h

/-- A pitch rotation of the opposite angle undoes a pitch rotation. -/
lemma pitch_inverse (θ : ℝ) (v : Vec3) :
    applyQuaternion (applyQuaternion v (setFromAxisAngle ⟨1, 0, 0⟩ θ))
      (setFromAxisAngle ⟨1, 0, 0⟩ (-θ)) = v := by
  have h := Real.sin_sq_add_cos_sq (θ / 2)
  ext
  · simp only [applyQuaternion, setFromAxisAngle, Real.cos_neg, Real.sin_neg, neg_div]
    ring
  · simp only [applyQuaternion, setFromAxisAngle, Real.cos_neg, Real.sin_neg, neg_div]
    linear_combination (4 * Real.sin (θ / 2) ^ 2 * v.y) * h
  · simp only [applyQuaternion, setFromAxisAngle, Real.cos_neg, Real.sin_neg, neg_div]
    linear_combination (4 * Real.sin (θ / 2) ^ 2 * v.z) * h

/-- C2 (amended): for single-axis calls, the only ones the UI issues,
rotate with the opposite angle restores the full camera state exactly,
provided the starting orientation faces the target, which every
orbit-consistent state does. -/
theorem rotate_single_axis_inverse (st : ViewState) (a b : ℝ)
    (hframe : st.frame = lookAtFrame st.position st.target worldUp) :
    rotate (-a) 0 (rotate a 0 st) = st ∧ rotate 0 (-b) (rotate 0 b st) = st := by
  have hposA : (rotate (-a) 0 (rotate a 0 st)).position = st.position := by
    rw [rotate_position, rotate_target, rotate_position, qmul_pitch_zero, qmul_pitch_zero,
      Vec3.sub_add_cancel_eq, yaw_inverse, Vec3.add_sub_cancel_eq]
  have hposB : (rotate 0 (-b) (rotate 0 b st)).position = st.position := by
    rw [rotate_position, rotate_target, rotate_position, qmul_yaw_zero, qmul_yaw_zero,
      Vec3.sub_add_cancel_eq, pitch_inverse, Vec3.add_sub_cancel_eq]
  constructor
  · refine ViewState.ext rfl hposA rfl ?_
    rw [rotate_frame, rotate_target, hposA, ← hframe]
  · refine ViewState.ext rfl hposB rfl ?_
    rw [rotate_frame, rotate_target, hposB, ← hframe]

/-- Witness for the amended C2 at a concrete orbit-consistent state and
angle 1. -/
theorem rotate_single_axis_inverse_witness :
    (witnessViewState.frame
        = lookAtFrame witnessViewState.position witnessViewState.target worldUp) ∧
    (rotate (-1) 0 (rotate 1 0 witnessViewState) = witnessViewState ∧
      rotate 0 (-1) (rotate 0 1 witnessViewState) = witnessViewState) :=
  ⟨rfl, rotate_single_axis_inverse witnessViewState 1 1 rfl⟩

/-- The yaw quaternion at angle pi. -/
lemma yaw_pi : setFromAxisAngle ⟨0, 1, 0⟩ Real.pi = ⟨0, 0, 1, 0⟩ := by
  ext <;> simp [setFromAxisAngle]

/-- The yaw quaternion at angle minus pi. -/
lemma yaw_neg_pi : setFromAxisAngle ⟨0, 1, 0⟩ (-Real.pi) = ⟨0, 0, -1, 0⟩ := by
  ext <;> simp [setFromAxisAngle, neg_div]

/-- The pitch quaternion at angle pi over two. -/
lemma pitch_half_pi :
    setFromAxisAngle ⟨1, 0, 0⟩ (Real.pi / 2)
      = ⟨Real.sqrt 2 / 2, Real.sqrt 2 / 2, 0, 0⟩ := by
  have hq : Real.pi / 2 / 2 = Real.pi / 4 := by ring
  ext <;> simp [setFromAxisAngle, hq]

/-- The pitch quaternion at angle minus pi over two. -/
lemma pitch_neg_half_pi :
    setFromAxisAngle ⟨1, 0, 0⟩ (-(Real.pi / 2))
      = ⟨Real.sqrt 2 / 2, -(Real.sqrt 2 / 2), 0, 0⟩ := by
  have hq : -(Real.pi / 2) / 2 = -(Real.pi / 4) := by ring
  ext <;> simp [setFromAxisAngle, hq]

/-- The combined quaternion of rotate pi (pi over two). -/
lemma qmul_counterexample_first :
    qmul (setFromAxisAngle ⟨0, 1, 0⟩ Real.pi) (setFromAxisAngle ⟨1, 0, 0⟩ (Real.pi / 2))
      = ⟨0, 0, Real.sqrt 2 / 2, -(Real.sqrt 2 / 2)⟩ := by
  rw [yaw_pi, pitch_half_pi]
  ext <;> simp [qmul]

/-- The combined quaternion of rotate minus pi (minus pi over two). -/
lemma qmul_counterexample_second :
    qmul (setFromAxisAngle ⟨0, 1, 0⟩ (-Real.pi)) (setFromAxisAngle ⟨1, 0, 0⟩ (-(Real.pi / 2)))
      = ⟨0, 0, -(Real.sqrt 2 / 2), -(Real.sqrt 2 / 2)⟩ := by
  rw [yaw_neg_pi, pitch_neg_half_pi]
  ext <;> simp [qmul]

/-- The first combined rotation sends the unit back vector to minus the
up vector. -/
lemma apply_counterexample_first :
    applyQuaternion ⟨0, 0, 1⟩ ⟨0, 0, Real.sqrt 2 / 2, -(Real.sqrt 2 / 2)⟩
      = ⟨0, -1, 0⟩ := by
  have h2 : Real.sqrt 2 * Real.sqrt 2 = 2 := Real.mul_self_sqrt (by norm_num)
  ext
  · simp only [applyQuaternion]
    ring
  · simp only [applyQuaternion]
    linear_combination (-(1 / 2 : ℝ)) * h2
  · simp only [applyQuaternion]
    linear_combination (-(1 / 2 : ℝ)) * h2

/-- The second combined rotation sends minus the up vector to the unit
front vector. -/
lemma apply_counterexample_second :
    applyQuaternion ⟨0, -1, 0⟩ ⟨0, 0, -(Real.sqrt 2 / 2), -(Real.sqrt 2 / 2)⟩
      = ⟨0, 0, -1⟩ := by
  have h2 : Real.sqrt 2 * Real.sqrt 2 = 2 := Real.mul_self_sqrt (by norm_num)
  ext
  · simp only [applyQuaternion]
    ring
  · simp only [applyQuaternion]
    linear_combination (1 / 2 : ℝ) * h2
  · simp only [applyQuaternion]
    linear_combination (-(1 / 2 : ℝ)) * h2

/-- The camera position after rotate pi (pi over two) then its opposite
from one unit behind the target: the camera ends one unit in front. -/
lemma counterexample_position :
    (rotate (-Real.pi) (-(Real.pi / 2)) (rotate Real.pi (Real.pi / 2) witnessViewState)).position
      = ⟨0, 0, -1⟩ := by
  have hsub : Vec3.sub ⟨0, 0, 1⟩ ⟨0, 0, 0⟩ = (⟨0, 0, 1⟩ : Vec3) := by
    ext <;> simp [Vec3.sub]
  have hadd1 : Vec3.add ⟨0, -1, 0⟩ ⟨0, 0, 0⟩ = (⟨0, -1, 0⟩ : Vec3) := by
    ext <;> simp [Vec3.add]
  have hsub2 : Vec3.sub ⟨0, -1, 0⟩ ⟨0, 0, 0⟩ = (⟨0, -1, 0⟩ : Vec3) := by
    ext <;> simp [Vec3.sub]
  have hadd2 : Vec3.add ⟨0, 0, -1⟩ ⟨0, 0, 0⟩ = (⟨0, 0, -1⟩ : Vec3) := by
    ext <;> simp [Vec3.add]
  rw [rotate_position, rotate_target, rotate_position]
  show Vec3.add
      (applyQuaternion
        (Vec3.sub
          (Vec3.add (applyQuaternion (Vec3.sub ⟨0, 0, 1⟩ ⟨0, 0, 0⟩)
            (qmul (setFromAxisAngle ⟨0, 1, 0⟩ Real.pi)
              (setFromAxisAngle ⟨1, 0, 0⟩ (Real.pi / 2)))) ⟨0, 0, 0⟩)
          ⟨0, 0, 0⟩)
        (qmul (setFromAxisAngle ⟨0, 1, 0⟩ (-Real.pi))
          (setFromAxisAngle ⟨1, 0, 0⟩ (-(Real.pi / 2))))) ⟨0, 0, 0⟩
      = ⟨0, 0, -1⟩
  rw [hsub, qmul_counterexample_first, apply_counterexample_first, hadd1, hsub2,
    qmul_counterexample_second, apply_counterexample_second, hadd2]

/-- The lookAt frame one unit behind the target looking forward. -/
lemma lookAtFrame_back_unit :
    lookAtFrame ⟨0, 0, 1⟩ ⟨0, 0, 0⟩ worldUp
      = ⟨⟨1, 0, 0⟩, ⟨0, 1, 0⟩, ⟨0, 0, 1⟩⟩ := by
  simp only [lookAtFrame, Vec3.sub, worldUp, Vec3.lengthSq, Vec3.cross, Vec3.normalize,
    Vec3.length]
  norm_num [Real.sqrt_one]

/-- The lookAt frame one unit in front of the target looking backward. -/
lemma lookAtFrame_front_unit :
    lookAtFrame ⟨0, 0, -1⟩ ⟨0, 0, 0⟩ worldUp
      = ⟨⟨-1, 0, 0⟩, ⟨0, 1, 0⟩, ⟨0, 0, -1⟩⟩ := by
  simp only [lookAtFrame, Vec3.sub, worldUp, Vec3.lengthSq, Vec3.cross, Vec3.normalize,
    Vec3.length]
  norm_num [Real.sqrt_one]

/-- C2 (counterexample): at the mixed-axis angles pi and pi over two,
from the orbit-consistent state one unit behind the target, rotate
followed by rotate with the opposite angles moves the camera to the
antipodal position and reverses the viewing direction, so neither the
position nor the orientation returns to its pre-call state: yaw and
pitch rotations do not commute. -/
theorem rotate_inverse_counterexample :
    (rotate (-Real.pi) (-(Real.pi / 2)) (rotate Real.pi (Real.pi / 2) witnessViewState)).position
        ≠ witnessViewState.position ∧
    (rotate (-Real.pi) (-(Real.pi / 2)) (rotate Real.pi (Real.pi / 2) witnessViewState)).frame
        ≠ witnessViewState.frame ∧
    (rotate (-Real.pi) (-(Real.pi / 2)) (rotate Real.pi (Real.pi / 2) witnessViewState)).position.z
        = -1 ∧
    witnessViewState.position.z = 1 := by
  have hframe : (rotate (-Real.pi) (-(Real.pi / 2))
      (rotate Real.pi (Real.pi / 2) witnessViewState)).frame
        = ⟨⟨-1, 0, 0⟩, ⟨0, 1, 0⟩, ⟨0, 0, -1⟩⟩ := by
    rw [rotate_frame, rotate_target, counterexample_position]
    exact lookAtFrame_front_unit
  refine ⟨?_, ?_, ?_, rfl⟩
  · rw [counterexample_position]
    intro h
    have hz := congrArg Vec3.z h
    simp only at hz
    rw [show witnessViewState.position.z = 1 from rfl] at hz
    norm_num at hz
  · rw [hframe]
    show _ ≠ witnessViewState.frame
    rw [show witnessViewState.frame = lookAtFrame ⟨0, 0, 1⟩ ⟨0, 0, 0⟩ worldUp from rfl,
      lookAtFrame_back_unit]
    intro h
    have hz := congrArg (fun f => (Frame.zAxis f).z) h
    simp only at hz
    norm_num at hz
  · rw [counterexample_position]

/-! ## Pinch gesture scenario -/

/-- The distance of the touch pair at horizontal separation 100. -/
lemma getDistance_100 : getDistance ⟨0, 0⟩ ⟨100, 0⟩ = 100 := by
  simp only [getDistance]
  rw [show ((0 : ℝ) - 100) * ((0 : ℝ) - 100) + ((0 : ℝ) - 0) * ((0 : ℝ) - 0) = 100 ^ 2 by
    norm_num]
  exact Real.sqrt_sq (by norm_num)

/-- The distance of the touch pair at horizontal separation 80. -/
lemma getDistance_80 : getDistance ⟨0, 0⟩ ⟨80, 0⟩ = 80 := by
  simp only [getDistance]
  rw [show ((0 : ℝ) - 80) * ((0 : ℝ) - 80) + ((0 : ℝ) - 0) * ((0 : ℝ) - 0) = 80 ^ 2 by
    norm_num]
  exact Real.sqrt_sq (by norm_num)

/-- The clamp is inert at 73. -/
lemma clampFov_73 : clampFov 73 = 73 := by
  rw [clampFov, max_eq_left (by norm_num), min_eq_left (by norm_num)]

/-- A touch move with no recorded distance changes nothing. -/
lemma handleTouchMove_no_record (touches : List Touch) (s : PinchState)
    (h : s.initialTouchDistance = none) : handleTouchMove touches s = s := by
  rcases touches with _ | ⟨t0, _ | ⟨t1, _ | _⟩⟩ <;> simp [handleTouchMove, h]

/-- C4: the pinch scenario of the specification: a touchstart with two
points at distance 100 records 100 and leaves the FOV alone; a move to
distance 80 raises the FOV by (100 - 80) * 0.15 and overwrites the
record with 80; a second move still at 80 changes nothing; touchend
clears the record; a following one-point touchstart records nothing,
so every later move leaves the whole state unchanged. -/
theorem pinch_gesture_spec :
    (handleTouchStart [⟨0, 0⟩, ⟨100, 0⟩] ⟨70, none⟩).initialTouchDistance = some 100 ∧
    (handleTouchStart [⟨0, 0⟩, ⟨100, 0⟩] ⟨70, none⟩).fov = 70 ∧
    (handleTouchMove [⟨0, 0⟩, ⟨80, 0⟩]
        (handleTouchStart [⟨0, 0⟩, ⟨100, 0⟩] ⟨70, none⟩)).fov
      = 70 + (100 - 80) * ZOOM_SENSITIVITY ∧
    (handleTouchMove [⟨0, 0⟩, ⟨80, 0⟩]
        (handleTouchStart [⟨0, 0⟩, ⟨100, 0⟩] ⟨70, none⟩)).initialTouchDistance = some 80 ∧
    (handleTouchMove [⟨0, 0⟩, ⟨80, 0⟩] (handleTouchMove [⟨0, 0⟩, ⟨80, 0⟩]
        (handleTouchStart [⟨0, 0⟩, ⟨100, 0⟩] ⟨70, none⟩))).fov
      = (handleTouchMove [⟨0, 0⟩, ⟨80, 0⟩]
        (handleTouchStart [⟨0, 0⟩, ⟨100, 0⟩] ⟨70, none⟩)).fov ∧
    (handleTouchEnd (handleTouchMove [⟨0, 0⟩, ⟨80, 0⟩] (handleTouchMove [⟨0, 0⟩, ⟨80, 0⟩]
        (handleTouchStart [⟨0, 0⟩, ⟨100, 0⟩] ⟨70, none⟩)))).initialTouchDistance = none ∧
    (handleTouchStart [⟨0, 0⟩]
        (handleTouchEnd (handleTouchMove [⟨0, 0⟩, ⟨80, 0⟩] (handleTouchMove [⟨0, 0⟩, ⟨80, 0⟩]
          (handleTouchStart [⟨0, 0⟩, ⟨100, 0⟩] ⟨70, none⟩))))).initialTouchDistance = none ∧
    ∀ touches : List Touch,
      handleTouchMove touches (handleTouchStart [⟨0, 0⟩]
          (handleTouchEnd (handleTouchMove [⟨0, 0⟩, ⟨80, 0⟩] (handleTouchMove [⟨0, 0⟩, ⟨80, 0⟩]
            (handleTouchStart [⟨0, 0⟩, ⟨100, 0⟩] ⟨70, none⟩)))))
        = handleTouchStart [⟨0, 0⟩]
            (handleTouchEnd (handleTouchMove [⟨0, 0⟩, ⟨80, 0⟩] (handleTouchMove [⟨0, 0⟩, ⟨80, 0⟩]
              (handleTouchStart [⟨0, 0⟩, ⟨100, 0⟩] ⟨70, none⟩)))) := by
  have hS1 : handleTouchStart [⟨0, 0⟩, ⟨100, 0⟩] (⟨70, none⟩ : PinchState)
      = ⟨70, some 100⟩ := by
    rw [show handleTouchStart [⟨0, 0⟩, ⟨100, 0⟩] (⟨70, none⟩ : PinchState)
        = ⟨70, some (getDistance ⟨0, 0⟩ ⟨100, 0⟩)⟩ from rfl, getDistance_100]
  have hS2 : handleTouchMove [⟨0, 0⟩, ⟨80, 0⟩] (⟨70, some 100⟩ : PinchState)
      = ⟨70 + (100 - 80) * ZOOM_SENSITIVITY, some 80⟩ := by
    rw [show handleTouchMove [⟨0, 0⟩, ⟨80, 0⟩] (⟨70, some 100⟩ : PinchState)
        = ⟨clampFov (70 + (100 - getDistance ⟨0, 0⟩ ⟨80, 0⟩) * ZOOM_SENSITIVITY),
            some (getDistance ⟨0, 0⟩ ⟨80, 0⟩)⟩ from rfl, getDistance_80]
    congr 1
    rw [show (70 : ℝ) + (100 - 80) * ZOOM_SENSITIVITY = 73 by norm_num [ZOOM_SENSITIVITY]]
    exact clampFov_73
  have hS3 : handleTouchMove [⟨0, 0⟩, ⟨80, 0⟩]
      (⟨70 + (100 - 80) * ZOOM_SENSITIVITY, some 80⟩ : PinchState)
        = ⟨70 + (100 - 80) * ZOOM_SENSITIVITY, some 80⟩ := by
    rw [show handleTouchMove [⟨0, 0⟩, ⟨80, 0⟩]
        (⟨70 + (100 - 80) * ZOOM_SENSITIVITY, some 80⟩ : PinchState)
          = ⟨clampFov (70 + (100 - 80) * ZOOM_SENSITIVITY
              + (80 - getDistance ⟨0, 0⟩ ⟨80, 0⟩) * ZOOM_SENSITIVITY),
            some (getDistance ⟨0, 0⟩ ⟨80, 0⟩)⟩ from rfl, getDistance_80]
    congr 1
    rw [show (70 : ℝ) + (100 - 80) * ZOOM_SENSITIVITY + (80 - 80) * ZOOM_SENSITIVITY = 73 by
      norm_num [ZOOM_SENSITIVITY]]
    rw [show (70 : ℝ) + (100 - 80) * ZOOM_SENSITIVITY = 73 by norm_num [ZOOM_SENSITIVITY]]
    exact clampFov_73
  refine ⟨?_, ?_, ?_, ?_, ?_, rfl, rfl, ?_⟩
  · rw [hS1]
  · rw [hS1]
  · rw [hS1, hS2]
  · rw [hS1, hS2]
  · rw [hS1, hS2, hS3]
  · exact fun touches => handleTouchMove_no_record touches _ rfl

end

end Vgc
